import Mathlib

/-!
Shallow embedding of the Kleinanzeigen scraping client
(`src/kleinanzeigen_mcp/client.py` and `types.py`).

Browser/DOM interaction is modelled by passing the observable content of a
page (element inner texts, attribute values, element presence) as explicit
data; navigation outcomes are an environment parameter.  All text processing
(Python `str.replace`, `str.strip`, `in`, `str.split`, the two `re.sub`
normalisations) is implemented executably over `List Char`.
-/

namespace Kleinanzeigen

/-- Whitespace characters stripped by Python `str.strip()`. -/
def isSpaceChar (c : Char) : Bool :=
  c = ' ' || c = '\t' || c = '\n' || c = '\x0d' || c = '\x0b' || c = '\x0c'

/-- Python `s.strip()`: drop leading and trailing whitespace. -/
def pyStrip (s : String) : String :=
  String.mk (((s.toList.dropWhile isSpaceChar).reverse.dropWhile isSpaceChar).reverse)

/-- Does `sub` occur as a contiguous sublist of `s`?  (Python `sub in s`.) -/
def containsSub (sub : List Char) : List Char → Bool
  | [] => sub.isEmpty
  | c :: rest => sub.isPrefixOf (c :: rest) || containsSub sub rest

/-- Python `sub in s` on strings. -/
def pyContains (s sub : String) : Bool :=
  containsSub sub.toList s.toList

/-- Replace every non-overlapping occurrence of `sub` (nonempty) by `rep`,
left to right, with explicit fuel (`fuel = length` suffices). -/
def replaceSubFuel (sub rep : List Char) : Nat → List Char → List Char
  | 0, s => s
  | _ + 1, [] => []
  | fuel + 1, c :: rest =>
    if sub ≠ [] ∧ sub.isPrefixOf (c :: rest) then
      rep ++ replaceSubFuel sub rep fuel (List.drop (sub.length - 1) rest)
    else
      c :: replaceSubFuel sub rep fuel rest

/-- Python `s.replace(sub, rep)` (for nonempty `sub`). -/
def pyReplace (s sub rep : String) : String :=
  String.mk (replaceSubFuel sub.toList rep.toList s.toList.length s.toList)

/-- Split on a nonempty separator, with fuel (Python `s.split(sep)`). -/
def splitSubFuel (sep : List Char) : Nat → List Char → List (List Char)
  | 0, s => [s]
  | _ + 1, [] => [[]]
  | fuel + 1, c :: rest =>
    if sep ≠ [] ∧ sep.isPrefixOf (c :: rest) then
      [] :: splitSubFuel sep fuel (List.drop (sep.length - 1) rest)
    else
      match splitSubFuel sep fuel rest with
      | [] => [[c]]
      | g :: gs => (c :: g) :: gs

/-- Python `s.split(sep)` on strings. -/
def pySplit (s sep : String) : List String :=
  (splitSubFuel sep.toList s.toList.length s.toList).map String.mk

/-- Collapse every maximal run of characters satisfying `p` to the single
character `rep` (the effect of `re.sub(r'X+', 'x', s)`). -/
def collapseRuns (p : Char → Bool) (rep : Char) : List Char → List Char
  | [] => []
  | [c] => [if p c then rep else c]
  | c1 :: c2 :: rest =>
    if p c1 && p c2 then collapseRuns p rep (c2 :: rest)
    else (if p c1 then rep else c1) :: collapseRuns p rep (c2 :: rest)

/-- `re.sub(r'[ \t]+', ' ', s)`. -/
def collapseSpaces (s : String) : String :=
  String.mk (collapseRuns (fun c => c = ' ' || c = '\t') ' ' s.toList)

/-- `re.sub(r'\n+', '\n', s)`. -/
def collapseNewlines (s : String) : String :=
  String.mk (collapseRuns (fun c => c = '\n') '\n' s.toList)

/-- Python-`dict` insertion: overwrite in place if the key exists, else
append (insertion order preserved, last write wins). -/
def dictInsert (m : List (String × String)) (k v : String) : List (String × String) :=
  if m.any (fun p => p.1 = k) then
    m.map (fun p => if p.1 = k then (k, v) else p)
  else
    m ++ [(k, v)]

/-! ## Data model (`types.py`) -/

/-- `types.py` defines exactly two concrete error classes,
`SearchError` and `DetailFetchError` (both subclasses of
`KleinanzeigenError`); there is no other error kind in the code. -/
inductive ErrKind where
  | searchError
  | detailFetchError
deriving DecidableEq, Repr

/-- `ListingSummary` from `types.py`: one row of a search-results page. -/
structure ListingSummary where
  adid : String
  url : String
  title : String
  price : String
  description : String
deriving DecidableEq, Repr

/-- `ListingDetails` from `types.py`.  Python dicts become ordered
association lists with unique keys (see `dictInsert`). -/
structure ListingDetails where
  id : String
  categories : List String
  title : String
  status : String
  price : Option String
  delivery : Option String
  location : List (String × String)
  views : String
  description : String
  images : List String
  details : List (String × String)
  features : List (String × String)
  seller : List (String × String)
  extra_info : List (String × String)
deriving DecidableEq, Repr

/-! ## Search-results page model -/

/-- Observable data of the `<article>` element inside one candidate
`.ad-listitem` fragment: the two identity attributes (absent attribute =
`none`) and the inner texts of the three optional sub-elements
(absent element = `none`). -/
structure ArticleData where
  dataAdid : Option String
  dataHref : Option String
  titleEl : Option String
  priceEl : Option String
  descEl : Option String
deriving DecidableEq, Repr

/-- One candidate fragment of a search-results page; `article = none`
models a fragment with no `<article>` child (skipped by the code). -/
structure SearchFragment where
  article : Option ArticleData
deriving DecidableEq, Repr

/-- What happens when the search loop visits one result page:
navigation raises, extraction raises internally, or the page yields a
list of candidate fragments. -/
inductive PageOutcome where
  | navFail
  | extractFail
  | content (frags : List SearchFragment)
deriving DecidableEq, Repr

/-! ## Price normalization -/

/-- The search-path price cleanup, `client.py` line 169:
`price_text.replace("€", "").replace("VB", "").replace(".", "").strip()`. -/
def cleanSearchPrice (t : String) : String :=
  pyStrip (pyReplace (pyReplace (pyReplace t "€" "") "VB" "") "." "")

/-- The cleanup chain inside `_parse_price`, `client.py` line 365:
`price_text.replace("€", "").replace("VB", "").replace(".", "").strip()`. -/
def cleanDetailPrice (t : String) : String :=
  pyStrip (pyReplace (pyReplace (pyReplace t "€" "") "VB" "") "." "")

/-- `_parse_price` (`client.py` lines 359-368): empty input yields `None`,
otherwise the cleaned text, or `None` when cleaning leaves nothing. -/
def parse_price (price_text : String) : Option String :=
  if price_text = "" then none
  else
    let cleaned := cleanDetailPrice price_text
    if cleaned = "" then none else some cleaned

/-! ## Search-path extraction (`_extract_listings_from_page`, per fragment) -/

/-- The per-fragment body of `_extract_listings_from_page`
(`client.py` lines 152-183).  A summary is appended only when the
`data-adid` and `data-href` attributes are both present and non-empty
(Python truthiness of `if data_adid and data_href`). -/
def emitSummary (base : String) (frag : SearchFragment) : Option ListingSummary :=
  match frag.article with
  | none => none
  | some a =>
    let titleText := match a.titleEl with | some t => t | none => ""
    let priceText := match a.priceEl with | some t => cleanSearchPrice t | none => ""
    let descText := match a.descEl with | some t => t | none => ""
    match a.dataAdid, a.dataHref with
    | some adid, some href =>
      if adid ≠ "" ∧ href ≠ "" then
        some { adid := adid, url := base ++ href, title := titleText,
               price := priceText, description := descText }
      else none
    | _, _ => none

/-- Successful-path result of `_extract_listings_from_page`: fragments are
processed in document order, partial fragments dropped. -/
def extract_listings_from_page (base : String) (frags : List SearchFragment) :
    List ListingSummary :=
  frags.filterMap (emitSummary base)

/-- The listings contributed by one visited page: an internal extraction
exception is caught in `_extract_listings_from_page` and becomes `[]`
(`client.py` lines 187-189). -/
def pageListings (base : String) : PageOutcome → List ListingSummary
  | .navFail => []
  | .extractFail => []
  | .content frags => extract_listings_from_page base frags

/-! ## The search operation (`search_listings`) -/

/-- Decidable equality for `Except` (not provided by the core library). -/
def exceptDecEq {ε α : Type} [DecidableEq ε] [DecidableEq α] :
    DecidableEq (Except ε α)
  | .error e1, .error e2 =>
    if h : e1 = e2 then isTrue (by rw [h])
    else isFalse (fun hc => h (Except.error.inj hc))
  | .error _, .ok _ => isFalse (fun hc => Except.noConfusion hc)
  | .ok _, .error _ => isFalse (fun hc => Except.noConfusion hc)
  | .ok a1, .ok a2 =>
    if h : a1 = a2 then isTrue (by rw [h])
    else isFalse (fun hc => h (Except.ok.inj hc))

instance {ε α : Type} [DecidableEq ε] [DecidableEq α] : DecidableEq (Except ε α) :=
  exceptDecEq

/-- Outcome of one `search_listings` call: its result plus the number of
page navigations attempted and whether the clamp warning was logged. -/
structure SearchRun where
  result : Except ErrKind (List ListingSummary)
  navigations : Nat
  warned : Bool
deriving DecidableEq, Repr

/-- `page_count` clamping value, `client.py` line 88:
`max(1, min(20, page_count))`. -/
def clampPageCount (n : Int) : Int :=
  max 1 (min 20 n)

/-- The page loop of `search_listings` (`client.py` lines 118-137).
`pageNum` is the next page number, `remaining` the pages still to fetch,
`acc` the aggregate so far, `navs` navigations already attempted.
A `goto` failure escapes to the `except` clause, which re-raises as
`SearchError`; extraction never raises (see `pageListings`); the loop
breaks after an empty first page. -/
def searchLoopGo (env : Nat → PageOutcome) (base : String) :
    Nat → Nat → List ListingSummary → Nat → SearchRun
  | _, 0, acc, navs => ⟨.ok acc, navs, false⟩
  | pageNum, remaining + 1, acc, navs =>
    match env pageNum with
    | .navFail => ⟨.error .searchError, navs + 1, false⟩
    | o =>
      let pr := pageListings base o
      if pr.isEmpty && pageNum == 1 then ⟨.ok (acc ++ pr), navs + 1, false⟩
      else
        searchLoopGo env base (pageNum + 1) remaining (acc ++ pr) (navs + 1)

/-- `search_listings` (`client.py` lines 57-144), with URL building and
filters abstracted into the page environment `env`.  The uninitialized
check (lines 83-84) precedes the clamp (lines 86-89); `warned` records
the warning-level log call on an out-of-range `page_count`. -/
def search_listings (started : Bool) (env : Nat → PageOutcome) (base : String)
    (pageCount : Int) : SearchRun :=
  match started with
  | false => ⟨.error .searchError, 0, false⟩
  | true =>
    let warned := decide (pageCount < 1 ∨ pageCount > 20)
    let pc := if pageCount < 1 ∨ pageCount > 20 then clampPageCount pageCount else pageCount
    let run := searchLoopGo env base 1 pc.toNat [] 0
    { run with warned := warned }

/-! ## Browser start (`start`) -/

/-- Whether the headless browser process launches. -/
inductive LaunchOutcome where
  | ok
  | fail
deriving DecidableEq, Repr

/-- `start` (`client.py` lines 33-44): one launch attempt, and on failure
the exception is re-raised as `SearchError` (line 44).  Returns the
result and the number of launch attempts made. -/
def start (launch : LaunchOutcome) : Except ErrKind Unit × Nat :=
  match launch with
  | .ok => (.ok (), 1)
  | .fail => (.error .searchError, 1)

/-! ## Detail page model and extraction -/

/-- Observable data of one detail page, field per DOM query performed by
`_extract_listing_details`: `none` = element absent, `some t` = inner
text `t`.  `detailItems`/`featureItems` are (label, value) element pairs
inside the repeated `.addetailslist--detail` fragments. -/
structure DetailPage where
  adIdBox : Option String
  breadcrumbs : List String
  titleEl : Option String
  soldBadge : Bool
  priceEl : Option String
  viewsEl : Option String
  descEl : Option String
  imageSrcs : List (Option String)
  shippingEl : Option String
  localityEl : Option String
  sellerNameEl : Option String
  hasDetailsBox : Bool
  detailItems : List (Option String × Option String)
  hasConfigBox : Bool
  featureItems : List (Option String × Option String)
deriving DecidableEq, Repr

/-- The nested `get_text` helper (`client.py` lines 238-243): stripped
inner text when the element exists, else the default. -/
def getText (el : Option String) (default : String) : String :=
  match el with
  | some t => pyStrip t
  | none => default

/-- The nested `get_texts` helper (`client.py` lines 245-252): stripped
inner texts of all matches, keeping only non-blank ones. -/
def getTexts (els : List String) : List String :=
  els.filterMap (fun t => if pyStrip t = "" then none else some (pyStrip t))

/-- Status determination (`client.py` lines 259-272): the default is
`"active"`; the three title checks form an `if`/`elif` chain on the raw
title inner text; the sold-badge check runs afterwards and overwrites
whatever the title produced. -/
def determineStatus (titleEl : Option String) (soldBadge : Bool) : String :=
  let fromTitle :=
    match titleEl with
    | none => "active"
    | some t =>
      if pyContains t "Verkauft" then "sold"
      else if pyContains t "Reserviert •" then "reserved"
      else if pyContains t "Gelöscht •" then "deleted"
      else "active"
  if soldBadge then "sold" else fromTitle

/-- Title cleanup (`client.py` lines 275-276): keep only the text after
the last bullet separator, stripped. -/
def cleanTitle (title : String) : String :=
  if pyContains title " • " then pyStrip ((pySplit title " • ").getLastD "")
  else title

/-- Label/value pairing for the `details`/`features` blocks
(`client.py` lines 320-340): pairs with a missing label or value element
are skipped; Python dict insertion gives last-write-wins. -/
def buildDict (items : List (Option String × Option String)) :
    List (String × String) :=
  items.foldl
    (fun m it =>
      match it with
      | (some l, some v) => dictInsert m (pyStrip l) (pyStrip v)
      | _ => m)
    []

/-- `_extract_listing_details` (`client.py` lines 235-357). -/
def extract_listing_details (p : DetailPage) : ListingDetails :=
  let ad_id := getText p.adIdBox "[ERROR] ID not found"
  let categories := getTexts p.breadcrumbs
  let title0 := getText p.titleEl "[ERROR] Title not found"
  let status := determineStatus p.titleEl p.soldBadge
  let title := cleanTitle title0
  let price := parse_price (getText p.priceEl "")
  let views := getText p.viewsEl "0"
  let desc0 := getText p.descEl ""
  let description :=
    if desc0 ≠ "" then collapseNewlines (pyStrip (collapseSpaces desc0)) else desc0
  let images := p.imageSrcs.filterMap id
  let shippingText := getText p.shippingEl ""
  let delivery :=
    if shippingText ≠ "" then
      if pyContains shippingText "Nur Abholung" then some "pickup"
      else if pyContains shippingText "Versand" then some "shipping"
      else none
    else none
  let locationText := getText p.localityEl ""
  let location := if locationText ≠ "" then [("raw", locationText)] else []
  let sellerName := getText p.sellerNameEl ""
  let seller := if sellerName ≠ "" then [("name", sellerName)] else []
  let details := if p.hasDetailsBox then buildDict p.detailItems else []
  let features := if p.hasConfigBox then buildDict p.featureItems else []
  { id := ad_id, categories := categories, title := title, status := status,
    price := price, delivery := delivery, location := location, views := views,
    description := description, images := images, details := details,
    features := features, seller := seller, extra_info := [] }

/-! ## The detail operation (`get_listing_details`) -/

/-- Navigation outcome for one detail fetch. -/
inductive DetailOutcome where
  | navFail
  | page (p : DetailPage)
deriving DecidableEq, Repr

/-- Outcome of one `get_listing_details` call: result, number of page
navigations attempted, and the URL passed to `goto` (none when no
navigation was attempted). -/
structure DetailRun where
  result : Except ErrKind ListingDetails
  navigations : Nat
  navigatedUrl : Option String
deriving DecidableEq, Repr

/-- Detail URL construction, `client.py` line 207: the f-string
`"{base_url}/s-anzeige/{listing_id}"` splices the id verbatim. -/
def detailUrl (base listing_id : String) : String :=
  base ++ "/s-anzeige/" ++ listing_id

/-- `get_listing_details` (`client.py` lines 191-233): uninitialized check
first (lines 204-205, no navigation), then navigation to `detailUrl`;
a navigation failure is re-raised as `DetailFetchError`. -/
def get_listing_details (started : Bool) (env : DetailOutcome) (base : String)
    (listing_id : String) : DetailRun :=
  match started with
  | false => ⟨.error .detailFetchError, 0, none⟩
  | true =>
    match env with
    | .navFail => ⟨.error .detailFetchError, 1, some (detailUrl base listing_id)⟩
    | .page p => ⟨.ok (extract_listing_details p), 1, some (detailUrl base listing_id)⟩

/-! ## Concrete fixtures -/

/-- A complete well-formed search fragment. -/
def articleOk : ArticleData :=
  { dataAdid := some "123", dataHref := some "/s-anzeige/bike-123",
    titleEl := some "Bike", priceEl := some "1.000 € VB", descEl := some "nice" }

def fragOk : SearchFragment := ⟨some articleOk⟩

/-- The summary the code emits for `fragOk` with base URL `"B"`. -/
def sumOk : ListingSummary :=
  { adid := "123", url := "B/s-anzeige/bike-123", title := "Bike",
    price := "1000", description := "nice" }

/-- A fragment whose article has no `data-adid` attribute. -/
def articleNoId : ArticleData :=
  { dataAdid := none, dataHref := some "/x", titleEl := some "T",
    priceEl := none, descEl := none }

def fragNoId : SearchFragment := ⟨some articleNoId⟩

/-- A fragment with identity but no title element. -/
def articleNoTitle : ArticleData :=
  { dataAdid := some "7", dataHref := some "/y", titleEl := none,
    priceEl := none, descEl := none }

def fragNoTitle : SearchFragment := ⟨some articleNoTitle⟩

def sumNoTitle : ListingSummary :=
  { adid := "7", url := "B/y", title := "", price := "", description := "" }

/-- A fragment whose price element holds only the negotiable marker. -/
def articlePriceVB : ArticleData :=
  { dataAdid := some "9", dataHref := some "/z", titleEl := some "T",
    priceEl := some "VB", descEl := none }

def fragPriceVB : SearchFragment := ⟨some articlePriceVB⟩

def sumPriceVB : ListingSummary :=
  { adid := "9", url := "B/z", title := "T", price := "", description := "" }

/-- A detail page with every optional element absent. -/
def emptyDetailPage : DetailPage :=
  { adIdBox := none, breadcrumbs := [], titleEl := none, soldBadge := false,
    priceEl := none, viewsEl := none, descEl := none, imageSrcs := [],
    shippingEl := none, localityEl := none, sellerNameEl := none,
    hasDetailsBox := false, detailItems := [], hasConfigBox := false,
    featureItems := [] }

/-- A title text containing the sold marker word and both bullet markers. -/
def titleAllMarkers : String := "Verkauft Reserviert • Gelöscht • Fahrrad"

def pageAllMarkers : DetailPage := { emptyDetailPage with titleEl := some titleAllMarkers }

def pageReservedTitle : DetailPage :=
  { emptyDetailPage with titleEl := some "Reserviert • Fahrrad" }

def pageReservedBadge : DetailPage :=
  { emptyDetailPage with titleEl := some "Reserviert • Fahrrad", soldBadge := true }

/-- Every page navigates fine and yields one good fragment. -/
def envAllGood : Nat → PageOutcome := fun _ => .content [fragOk]

/-- Page 1 yields one good fragment; every later page raises inside
extraction (which the code swallows into an empty page result). -/
def envPage2Fail : Nat → PageOutcome :=
  fun n => if n = 1 then .content [fragOk] else .extractFail

/-- Every navigation fails. -/
def envNavFail : Nat → PageOutcome := fun _ => .navFail

/-- A trivial environment (never navigated in the uninitialized case). -/
def envTriv : Nat → PageOutcome := fun _ => .extractFail

/-! ## Helper lemmas -/

lemma status_eq (p : DetailPage) :
    (extract_listing_details p).status = determineStatus p.titleEl p.soldBadge := rfl

lemma effectivePC (pc : Int) :
    (if pc < 1 ∨ pc > 20 then clampPageCount pc else pc) = clampPageCount pc := by
  by_cases h : pc < 1 ∨ pc > 20
  · rw [if_pos h]
  · rw [if_neg h]
    unfold clampPageCount
    omega

lemma search_listings_true (env : Nat → PageOutcome) (base : String) (pc : Int) :
    search_listings true env base pc =
      ⟨(searchLoopGo env base 1 (clampPageCount pc).toNat [] 0).result,
       (searchLoopGo env base 1 (clampPageCount pc).toNat [] 0).navigations,
       decide (pc < 1 ∨ pc > 20)⟩ := by
  show ({ searchLoopGo env base 1
            (if pc < 1 ∨ pc > 20 then clampPageCount pc else pc).toNat [] 0 with
          warned := decide (pc < 1 ∨ pc > 20) } : SearchRun) = _
  rw [effectivePC]

lemma searchLoopGo_navFail (env : Nat → PageOutcome) (base : String)
    (pageNum remaining navs : Nat) (acc : List ListingSummary)
    (h : env pageNum = .navFail) :
    searchLoopGo env base pageNum (remaining + 1) acc navs =
      ⟨.error .searchError, navs + 1, false⟩ := by
  simp only [searchLoopGo, h]

lemma searchLoopGo_ok_of_no_navFail (env : Nat → PageOutcome) (base : String)
    (H : ∀ n, env n ≠ .navFail) :
    ∀ remaining pageNum acc navs, ∃ l n2,
      searchLoopGo env base pageNum remaining acc navs = ⟨.ok l, n2, false⟩ := by
  intro remaining
  induction remaining with
  | zero => exact fun pageNum acc navs => ⟨acc, navs, rfl⟩
  | succ m ih =>
    intro pageNum acc navs
    cases henv : env pageNum with
    | navFail => exact absurd henv (H pageNum)
    | extractFail =>
      simp only [searchLoopGo, henv]
      split
      · exact ⟨_, _, rfl⟩
      · exact ih (pageNum + 1) _ (navs + 1)
    | content frags =>
      simp only [searchLoopGo, henv]
      split
      · exact ⟨_, _, rfl⟩
      · exact ih (pageNum + 1) _ (navs + 1)

lemma searchLoopGo_full (env : Nat → PageOutcome) (base : String)
    (H1 : ∀ n, env n ≠ .navFail)
    (H2 : ∀ n, pageListings base (env n) ≠ []) :
    ∀ remaining pageNum acc navs, ∃ l,
      searchLoopGo env base pageNum remaining acc navs =
        ⟨.ok l, navs + remaining, false⟩ := by
  intro remaining
  induction remaining with
  | zero => exact fun pageNum acc navs => ⟨acc, rfl⟩
  | succ m ih =>
    intro pageNum acc navs
    cases henv : env pageNum with
    | navFail => exact absurd henv (H1 pageNum)
    | extractFail =>
      have h2 := H2 pageNum
      rw [henv] at h2
      exact absurd rfl h2
    | content frags =>
      have h2 := H2 pageNum
      rw [henv] at h2
      have hpr : (pageListings base (PageOutcome.content frags)).isEmpty = false := by
        rcases hpl : pageListings base (PageOutcome.content frags) with _ | ⟨a, l⟩
        · exact absurd hpl h2
        · rfl
      obtain ⟨l, hl⟩ :=
        ih (pageNum + 1) (acc ++ pageListings base (PageOutcome.content frags)) (navs + 1)
      refine ⟨l, ?_⟩
      simp only [searchLoopGo, henv, hpr, Bool.false_and, Bool.false_eq_true, if_false]
      rw [hl]
      have harith : navs + 1 + m = navs + (m + 1) := by omega
      rw [harith]

lemma emitSummary_none_of_missing (base : String) (a : ArticleData)
    (frag : SearchFragment) (ha : frag.article = some a)
    (h : a.dataAdid = none ∨ a.dataAdid = some "" ∨
         a.dataHref = none ∨ a.dataHref = some "") :
    emitSummary base frag = none := by
  unfold emitSummary
  rw [ha]
  dsimp only
  cases had : a.dataAdid with
  | none => cases hhr : a.dataHref <;> rfl
  | some adid =>
    cases hhr : a.dataHref with
    | none => rfl
    | some href =>
      rcases h with h | h | h | h
      · rw [had] at h; exact absurd h (by simp)
      · rw [had] at h
        injection h with h2
        subst h2
        simp
      · rw [hhr] at h; exact absurd h (by simp)
      · rw [hhr] at h
        injection h with h2
        subst h2
        simp

lemma emitSummary_none_of_no_article (base : String) (frag : SearchFragment)
    (ha : frag.article = none) : emitSummary base frag = none := by
  unfold emitSummary
  rw [ha]

lemma emitSummary_some_fields (base : String) (a : ArticleData)
    (frag : SearchFragment) (ha : frag.article = some a) (s : ListingSummary)
    (h : emitSummary base frag = some s) :
    s.title = (match a.titleEl with | some t => t | none => "") ∧
    s.price = (match a.priceEl with | some t => cleanSearchPrice t | none => "") ∧
    s.description = (match a.descEl with | some t => t | none => "") ∧
    a.dataAdid = some s.adid ∧ a.dataHref ≠ none := by
  unfold emitSummary at h
  rw [ha] at h
  dsimp only at h
  cases had : a.dataAdid with
  | none => rw [had] at h; simp at h
  | some adid =>
    cases hhr : a.dataHref with
    | none => rw [had, hhr] at h; simp at h
    | some href =>
      rw [had, hhr] at h
      dsimp only at h
      split_ifs at h with hcond
      injection h with h2
      subst h2
      exact ⟨rfl, rfl, rfl, rfl, by simp⟩

/-! ## Claim C1 — price normalization on the two paths -/

/-- C1, counterexample: the claim says an empty result after cleanup makes
the price field absent on both paths, but on the search path a price
element holding only the negotiable marker yields a summary whose price
field is the present empty string, while the detail path's
`_parse_price` does return absence for the same text. -/
theorem search_price_kept_as_empty_string :
    extract_listings_from_page "B" [fragPriceVB] = [sumPriceVB] ∧
    sumPriceVB.price = "" ∧
    parse_price "VB" = none := by
  exact ⟨rfl, rfl, rfl⟩

/-- C1, amended: the cleanup transformation (drop the currency symbol,
the negotiable marker, and thousands-separator dots, then trim) is the
same function on the search and detail paths and maps
`"1.000 € VB"` to `"1000"`; on the detail path an empty cleaned result
(or empty input) yields an absent price, but on the search path the
summary's price field is the cleaned string itself, which is the empty
string (not absence) when nothing remains. -/
theorem price_cleanup_shared (t base : String) (frag : SearchFragment)
    (a : ArticleData) (s : ListingSummary) (ha : frag.article = some a)
    (hs : emitSummary base frag = some s) :
    cleanSearchPrice t = cleanDetailPrice t ∧
    cleanSearchPrice "1.000 € VB" = "1000" ∧
    parse_price "1.000 € VB" = some "1000" ∧
    parse_price "VB" = none ∧
    parse_price "" = none ∧
    (cleanDetailPrice t = "" → parse_price t = none) ∧
    s.price = (match a.priceEl with | some pt => cleanSearchPrice pt | none => "") := by
  refine ⟨rfl, by decide, by decide, by decide, by decide, ?_, ?_⟩
  · intro hc
    unfold parse_price
    simp [hc]
  · exact (emitSummary_some_fields base a frag ha s hs).2.1

/-- C1, witness for `price_cleanup_shared`. -/
theorem price_cleanup_shared_witness : parse_price "€" = none :=
  (price_cleanup_shared "€" "B" fragPriceVB articlePriceVB sumPriceVB rfl
    (by decide)).2.2.2.2.2.1 (by decide)

/-! ## Claim C2 — title-derived status precedence -/

/-- C2, counterexample: with no sold badge and a title containing the
sold marker word together with both the reserved and the deleted bullet
markers, the emitted status is `"sold"` — not `"reserved"` (and not
`"deleted"`): the `elif` chain makes the earlier check win, the later
checks do not override it. -/
theorem status_sold_marker_wins_counterexample :
    pyContains titleAllMarkers "Verkauft" = true ∧
    pyContains titleAllMarkers "Reserviert •" = true ∧
    pyContains titleAllMarkers "Gelöscht •" = true ∧
    pageAllMarkers.soldBadge = false ∧
    (extract_listing_details pageAllMarkers).status = "sold" := by
  exact ⟨by decide, by decide, by decide, rfl, by decide⟩

/-- C2, amended: the title-derived checks are evaluated as a
first-match-wins chain in the order sold, reserved, deleted: with no
sold badge, a title containing the sold marker word yields `"sold"`
regardless of the other markers; `"reserved"` requires the sold marker
to be absent; `"deleted"` requires both the sold and the reserved
markers to be absent. -/
theorem status_title_first_match (p : DetailPage) (t : String)
    (ht : p.titleEl = some t) (hb : p.soldBadge = false) :
    (pyContains t "Verkauft" = true →
      (extract_listing_details p).status = "sold") ∧
    (pyContains t "Verkauft" = false → pyContains t "Reserviert •" = true →
      (extract_listing_details p).status = "reserved") ∧
    (pyContains t "Verkauft" = false → pyContains t "Reserviert •" = false →
      pyContains t "Gelöscht •" = true →
      (extract_listing_details p).status = "deleted") := by
  refine ⟨?_, ?_, ?_⟩
  · intro h1
    rw [status_eq, ht, hb]
    simp [determineStatus, h1]
  · intro h1 h2
    rw [status_eq, ht, hb]
    simp [determineStatus, h1, h2]
  · intro h1 h2 h3
    rw [status_eq, ht, hb]
    simp [determineStatus, h1, h2, h3]

/-- C2, witness for `status_title_first_match`. -/
theorem status_title_first_match_witness :
    (extract_listing_details pageReservedTitle).status = "reserved" :=
  (status_title_first_match pageReservedTitle "Reserviert • Fahrrad" rfl
    rfl).2.1 (by decide) (by decide)

/-! ## Claim C3 — sold badge wins, closed status set -/

/-- C3: the sold-badge check runs last and overwrites every title-derived
state, so any page with the badge gets status `"sold"` whatever the
title says; and the emitted status always lies in the closed set
active, sold, reserved, deleted. -/
theorem status_badge_wins_closed_set (p : DetailPage) :
    (p.soldBadge = true → (extract_listing_details p).status = "sold") ∧
    ((extract_listing_details p).status = "active" ∨
     (extract_listing_details p).status = "sold" ∨
     (extract_listing_details p).status = "reserved" ∨
     (extract_listing_details p).status = "deleted") := by
  constructor
  · intro hb
    rw [status_eq, hb]
    simp [determineStatus]
  · rw [status_eq]
    simp only [determineStatus]
    cases hb : p.soldBadge
    · cases hT : p.titleEl with
      | none => simp
      | some t =>
        by_cases h1 : pyContains t "Verkauft" = true
        · simp [h1]
        · by_cases h2 : pyContains t "Reserviert •" = true
          · simp [h1, h2]
          · by_cases h3 : pyContains t "Gelöscht •" = true
            · simp [h1, h2, h3]
            · simp [h1, h2, h3]
    · simp

/-- C3, witness for `status_badge_wins_closed_set`: a page whose title
carries the reserved bullet marker but which shows the sold badge gets
status `"sold"`. -/
theorem status_badge_wins_witness :
    (extract_listing_details pageReservedBadge).status = "sold" :=
  (status_badge_wins_closed_set pageReservedBadge).1 rfl

/-! ## Claim C4 — failure handling inside the page loop -/

/-- C4, counterexample: with a two-page search whose second page raises
inside extraction, the failure is swallowed (`_extract_listings_from_page`
catches its own exceptions and returns an empty list), the search
completes without any `SearchError`, and the partial aggregate from
page 1 is returned. -/
theorem search_partial_after_extract_failure :
    search_listings true envPage2Fail "B" 2 =
      { result := Except.ok [sumOk], navigations := 2, warned := false } ∧
    envPage2Fail 2 = PageOutcome.extractFail := by
  exact ⟨by decide, rfl⟩

/-- C4, amended: a navigation failure inside the loop aborts the whole
search with a `SearchError` wrapping the cause (already on page 1, for
any requested page count); extraction failures, by contrast, are caught
inside the page extractor and contribute an empty page result, so a run
without navigation failures always returns a result (possibly a partial
aggregate) instead of raising. -/
theorem search_abort_policy (env : Nat → PageOutcome) (base : String) (pc : Int)
    (hnav : env 1 = PageOutcome.navFail) :
    (search_listings true env base pc).result = Except.error ErrKind.searchError ∧
    ∀ env2 : Nat → PageOutcome, (∀ n, env2 n ≠ PageOutcome.navFail) →
      ∃ l, (search_listings true env2 base pc).result = Except.ok l := by
  constructor
  · rw [search_listings_true]
    obtain ⟨k, hk⟩ : ∃ k, (clampPageCount pc).toNat = k + 1 :=
      ⟨(clampPageCount pc).toNat - 1, by unfold clampPageCount; omega⟩
    rw [hk, searchLoopGo_navFail env base 1 k 0 [] hnav]
  · intro env2 H
    obtain ⟨l, n2, h⟩ :=
      searchLoopGo_ok_of_no_navFail env2 base H (clampPageCount pc).toNat 1 [] 0
    refine ⟨l, ?_⟩
    rw [search_listings_true, h]

/-- C4, witness for `search_abort_policy`. -/
theorem search_abort_policy_witness :
    (search_listings true envNavFail "B" 3).result =
      Except.error ErrKind.searchError :=
  (search_abort_policy envNavFail "B" 3 rfl).1

/-! ## Claim C5 — summaries require identity and URL -/

/-- C5: a summary is emitted for a fragment only when both the identity
attribute and the URL attribute were recoverable (present and
non-empty); a fragment missing either, or missing its article element,
is silently dropped; consequently a page never yields more summaries
than it has candidate fragments. -/
theorem summary_requires_id_and_url (base : String) (frag : SearchFragment)
    (s : ListingSummary) (a : ArticleData) (ha : frag.article = some a) :
    (emitSummary base frag = some s →
      ¬(a.dataAdid = none ∨ a.dataAdid = some "" ∨
        a.dataHref = none ∨ a.dataHref = some "")) ∧
    ((a.dataAdid = none ∨ a.dataAdid = some "" ∨
      a.dataHref = none ∨ a.dataHref = some "") →
      emitSummary base frag = none) ∧
    (∀ f : SearchFragment, f.article = none → emitSummary base f = none) ∧
    (∀ frags : List SearchFragment,
      (extract_listings_from_page base frags).length ≤ frags.length) := by
  refine ⟨?_, ?_, ?_, ?_⟩
  · intro h hbad
    rw [emitSummary_none_of_missing base a frag ha hbad] at h
    exact Option.noConfusion h
  · exact emitSummary_none_of_missing base a frag ha
  · exact emitSummary_none_of_no_article base
  · exact fun frags => List.length_filterMap_le _ _

/-- C5, witness for `summary_requires_id_and_url`: a fragment whose
article lacks the identity attribute produces no summary. -/
theorem summary_requires_id_and_url_witness : emitSummary "B" fragNoId = none :=
  (summary_requires_id_and_url "B" fragNoId sumOk articleNoId rfl).2.1
    (Or.inl rfl)

/-! ## Claim C6 — page-count clamping -/

/-- C6: on a run in which every page navigates successfully and yields
listings (so neither the navigation-failure abort nor the empty-first-page
early exit applies), the number of pages fetched is exactly
`clamp(pageCount, 1, 20)`: values below 1 become 1, values above 20
become 20, in-range values are used unchanged, the search is never
rejected for an out-of-range count, and the warning side channel fires
exactly when the count was out of range. -/
theorem search_page_count_clamped (pc : Int) (env : Nat → PageOutcome)
    (base : String)
    (H1 : ∀ n, env n ≠ PageOutcome.navFail)
    (H2 : ∀ n, pageListings base (env n) ≠ []) :
    (search_listings true env base pc).navigations = (clampPageCount pc).toNat ∧
    (pc < 1 → clampPageCount pc = 1) ∧
    (20 < pc → clampPageCount pc = 20) ∧
    (1 ≤ pc → pc ≤ 20 → clampPageCount pc = pc) ∧
    ((search_listings true env base pc).warned = true ↔ (pc < 1 ∨ pc > 20)) ∧
    (∃ l, (search_listings true env base pc).result = Except.ok l) := by
  obtain ⟨l, hl⟩ := searchLoopGo_full env base H1 H2 (clampPageCount pc).toNat 1 [] 0
  refine ⟨?_, ?_, ?_, ?_, ?_, ⟨l, ?_⟩⟩
  · rw [search_listings_true, hl]
    simp
  · intro h; unfold clampPageCount; omega
  · intro h; unfold clampPageCount; omega
  · intro h1 h2; unfold clampPageCount; omega
  · rw [search_listings_true]
    simp
  · rw [search_listings_true, hl]

/-- C6, witness for `search_page_count_clamped`: requesting 25 pages in
an environment where every page yields listings fetches exactly 20. -/
theorem search_page_count_clamped_witness :
    (search_listings true envAllGood "B" 25).navigations = 20 := by
  have h := search_page_count_clamped 25 envAllGood "B"
    (fun n => by
      show PageOutcome.content [fragOk] ≠ PageOutcome.navFail
      decide)
    (fun n => by
      show pageListings "B" (PageOutcome.content [fragOk]) ≠ []
      decide)
  rw [h.1]
  decide

/-! ## Claim C7 — uninitialized session -/

/-- C7: calling `search_listings` on a session that was never started
raises `SearchError`, and calling `get_listing_details` on such a
session raises `DetailFetchError`, in both cases with zero navigation
attempts (and, for the detail path, no URL ever handed to `goto`). -/
theorem uninitialized_session_errors :
    ∀ (env : Nat → PageOutcome) (denv : DetailOutcome) (base : String)
      (pc : Int) (lid : String),
      search_listings false env base pc =
        { result := Except.error ErrKind.searchError,
          navigations := 0, warned := false } ∧
      get_listing_details false denv base lid =
        { result := Except.error ErrKind.detailFetchError,
          navigations := 0, navigatedUrl := none } :=
  fun _ _ _ _ _ => ⟨rfl, rfl⟩

/-! ## Claim C8 — browser launch failure -/

/-- C8, counterexample: the error raised when the browser fails to launch
is `SearchError` — the very same kind the search operation uses — so it
is not a distinct `SessionError`; indeed `types.py` defines no
`SessionError` at all. -/
theorem start_failure_error_kind_not_distinct :
    (start LaunchOutcome.fail).1 = Except.error ErrKind.searchError ∧
    (search_listings false envTriv "B" 1).result =
      Except.error ErrKind.searchError :=
  ⟨rfl, rfl⟩

/-- C8, amended: a browser launch failure is surfaced immediately by
`start` after a single launch attempt (no retry), but as `SearchError`,
the same kind used by the search operation, because the code's error
taxonomy contains only `SearchError` and `DetailFetchError`. -/
theorem start_failure_raises_search_error :
    (start LaunchOutcome.fail).1 = Except.error ErrKind.searchError ∧
    (start LaunchOutcome.fail).2 = 1 ∧
    (start LaunchOutcome.ok).2 = 1 ∧
    ∀ e : ErrKind, e = ErrKind.searchError ∨ e = ErrKind.detailFetchError := by
  refine ⟨rfl, rfl, rfl, fun e => ?_⟩
  cases e
  · exact Or.inl rfl
  · exact Or.inr rfl

/-! ## Claim C9 — summary titles can be empty -/

/-- C9, counterexample: a fragment carrying identity and URL but no title
element is emitted with `title = ""` — the empty string — so a
successful extraction does not guarantee a non-empty title. -/
theorem summary_empty_title_emitted :
    extract_listings_from_page "B" [fragNoTitle] = [sumNoTitle] ∧
    sumNoTitle.title = "" := by
  exact ⟨rfl, rfl⟩

/-- C9, amended: an emitted summary's title is the title element's inner
text when the element exists and the empty string otherwise; emission
requires only identity and URL, so the title may be empty. -/
theorem summary_title_from_element (base : String) (frag : SearchFragment)
    (s : ListingSummary) (a : ArticleData) (ha : frag.article = some a)
    (h : emitSummary base frag = some s) :
    s.title = (match a.titleEl with | some t => t | none => "") :=
  (emitSummary_some_fields base a frag ha s h).1

/-- C9, witness for `summary_title_from_element`. -/
theorem summary_title_from_element_witness : sumNoTitle.title = "" :=
  summary_title_from_element "B" fragNoTitle sumNoTitle articleNoTitle rfl
    (by decide)

/-! ## Claim C10 — detail URL templating -/

/-- C10: for every listing id, the URL handed to `goto` by
`get_listing_details` is exactly the base URL, the fixed
`"/s-anzeige/"` segment, and the id spliced in verbatim — no
validation, escaping, or encoding — and exactly one navigation is
attempted with it, whatever string the id is. -/
theorem detail_url_verbatim :
    ∀ (env : DetailOutcome) (base lid : String),
      (get_listing_details true env base lid).navigatedUrl =
        some (base ++ "/s-anzeige/" ++ lid) ∧
      (get_listing_details true env base lid).navigations = 1 := by
  intro env base lid
  cases env <;> exact ⟨rfl, rfl⟩

end Kleinanzeigen
